import Mathlib

/-!
Verification of the Meru refinery prediction service.

This file gives a shallow embedding of the service's core:
`ModelManager` artifact loading (`src/render_deployment/app.py`,
`src/deployment/app.py`), the four-stage feature pipeline and enhanced
prediction handler (`enhance_prediction`), the legacy prediction handler
of `src/deployment/app.py` (`deployment_predict_loss`), the derived-metrics
post-processing (`calculate_loss_breakdown`, `calculate_yield_analysis`,
`calculate_process_metrics`), the batch endpoint (`batch_predict`,
`batch_endpoint`) and the `models_status` endpoint.

Numeric values are modelled as exact rationals (ℚ): the Python code computes
with binary floats, and every claim-relevant computation here is a short chain
of field operations where the rational idealization is the intended reading.
Python's `round(x, 2)` (round-half-to-even at two decimals) is modelled
exactly by `pyRound2`.  Fitted scikit-learn artifacts are opaque objects
exposing an input width (`n_features_in_`), an output width, and a numeric
map; their `transform`/`predict` reject an input whose width differs from the
expected one (the library's own internal error), which is modelled by
`Option`-valued `transform`/`predict1`.
-/

/-- Round a rational to the nearest integer, ties to even — the rounding of
Python's builtin `round`. -/
def roundHalfEven (q : ℚ) : ℤ :=
  if q - ⌊q⌋ < 1/2 then ⌊q⌋
  else if 1/2 < q - ⌊q⌋ then ⌊q⌋ + 1
  else if ⌊q⌋ % 2 = 0 then ⌊q⌋ else ⌊q⌋ + 1

/-- Python's `round(q, n)` on exact rationals. -/
def pyRound (q : ℚ) (ndigits : ℕ) : ℚ :=
  (roundHalfEven (q * (10 : ℚ) ^ ndigits) : ℚ) / (10 : ℚ) ^ ndigits

/-- Python's `round(q, 2)`, ubiquitous in the service's response building. -/
def pyRound2 (q : ℚ) : ℚ := pyRound q 2

theorem roundHalfEven_ge (A : ℤ) (x : ℚ) (h : (A : ℚ) ≤ x) :
    A ≤ roundHalfEven x := by
  have hA : A ≤ ⌊x⌋ := Int.le_floor.mpr h
  unfold roundHalfEven
  split_ifs <;> omega

theorem roundHalfEven_le (B : ℤ) (x : ℚ) (h : x ≤ (B : ℚ)) :
    roundHalfEven x ≤ B := by
  have hfl : ⌊x⌋ ≤ B := by
    have := Int.floor_le_floor h
    simpa using this
  have hlow : (⌊x⌋ : ℚ) ≤ x := Int.floor_le x
  unfold roundHalfEven
  split_ifs with h1 h2 h3
  · exact hfl
  · rcases lt_or_eq_of_le hfl with h' | h'
    · omega
    · exfalso
      rw [h'] at hlow h2
      have : x ≤ (B : ℚ) + 1/2 := by linarith
      linarith
  · exact hfl
  · rcases lt_or_eq_of_le hfl with h' | h'
    · omega
    · exfalso
      have hfrac : x - (⌊x⌋ : ℚ) = 1/2 := le_antisymm (not_lt.mp h2) (not_lt.mp h1)
      rw [h'] at hfrac
      have : x = (B : ℚ) + 1/2 := by linarith
      linarith

/-- `pyRound2` keeps a value inside a closed interval whose endpoints are
exact two-decimal quantities `A/100`, `B/100`. -/
theorem pyRound2_mem (A B : ℤ) (q : ℚ)
    (h1 : (A : ℚ) / 100 ≤ q) (h2 : q ≤ (B : ℚ) / 100) :
    (A : ℚ) / 100 ≤ pyRound2 q ∧ pyRound2 q ≤ (B : ℚ) / 100 := by
  have h100 : (0 : ℚ) < 100 := by norm_num
  have hA : (A : ℚ) ≤ q * 100 := by
    rw [div_le_iff₀ h100] at h1
    linarith
  have hB : q * 100 ≤ (B : ℚ) := by
    rw [le_div_iff₀ h100] at h2
    linarith
  have hga : A ≤ roundHalfEven (q * 100) := roundHalfEven_ge A _ hA
  have hgb : roundHalfEven (q * 100) ≤ B := roundHalfEven_le B _ hB
  constructor
  · unfold pyRound2 pyRound
    rw [div_le_div_iff₀ h100 (by norm_num)]
    have : (A : ℚ) ≤ (roundHalfEven (q * 100) : ℚ) := by exact_mod_cast hga
    norm_num
    linarith
  · unfold pyRound2 pyRound
    rw [div_le_div_iff₀ (by norm_num) h100]
    have : ((roundHalfEven (q * 100) : ℤ) : ℚ) ≤ (B : ℚ) := by exact_mod_cast hgb
    norm_num
    linarith

/-! ## Data model

`RefineryOperationInput` is the request body of the enhanced service
(`src/render_deployment/app.py`, class `RefineryOperationInput`): the 14
canonical numeric process fields plus the `process_type` tag and the
`convert_to_percentage` output-mode flag (default `True`).  The legacy
`PredictionInput` of `src/deployment/app.py` carries exactly the same 14
numeric fields; the legacy handler reads only those, so the same record type
is used for it. -/

inductive ProcessType
  | refinery
  | fractionation
  | chemical_treatment
deriving DecidableEq, Repr

structure RefineryOperationInput where
  percentage_yield : ℚ
  gravity : ℚ
  vapour_pressure : ℚ
  ten_percent_distillation : ℚ
  fraction_end_point : ℚ
  actual_feed_mt : ℚ
  feed_ffa : ℚ
  moisture : ℚ
  bleaching_earth_quantity : ℚ
  phosphoric_acid_quantity : ℚ
  citric_acid_quantity : ℚ
  phenamol_quantity : ℚ
  fractionation_feed : ℚ
  phenomol_consumption : ℚ
  process_type : ProcessType := ProcessType.refinery
  convert_to_percentage : Bool := true
deriving DecidableEq, Repr

/-- The one-row dataframe `input_df[BASE_FEATURE_NAMES]`: the 14 canonical
feature values in the canonical order. -/
def RefineryOperationInput.toFeatureList (d : RefineryOperationInput) : List ℚ :=
  [d.percentage_yield, d.gravity, d.vapour_pressure, d.ten_percent_distillation,
   d.fraction_end_point, d.actual_feed_mt, d.feed_ffa, d.moisture,
   d.bleaching_earth_quantity, d.phosphoric_acid_quantity, d.citric_acid_quantity,
   d.phenamol_quantity, d.fractionation_feed, d.phenomol_consumption]

theorem toFeatureList_length (d : RefineryOperationInput) :
    d.toFeatureList.length = 14 := rfl

/-- The pydantic `Field(..., ge=…, le=…)` range constraints on
`RefineryOperationInput`, enforced by the framework before a handler runs. -/
def validInput (d : RefineryOperationInput) : Bool :=
  decide (0 ≤ d.percentage_yield ∧ d.percentage_yield ≤ 100) &&
  decide (0 ≤ d.gravity ∧ d.gravity ≤ 2) &&
  decide (0 ≤ d.vapour_pressure) &&
  decide (0 ≤ d.ten_percent_distillation) &&
  decide (0 ≤ d.fraction_end_point) &&
  decide (0 ≤ d.actual_feed_mt) &&
  decide (0 ≤ d.feed_ffa ∧ d.feed_ffa ≤ 50) &&
  decide (0 ≤ d.moisture ∧ d.moisture ≤ 10) &&
  decide (0 ≤ d.bleaching_earth_quantity) &&
  decide (0 ≤ d.phosphoric_acid_quantity) &&
  decide (0 ≤ d.citric_acid_quantity) &&
  decide (0 ≤ d.phenamol_quantity) &&
  decide (0 ≤ d.fractionation_feed) &&
  decide (0 ≤ d.phenomol_consumption)

/-! ## Fitted artifacts

A fitted scikit-learn transform stage is opaque: it exposes its fitted input
width (`n_features_in_`), its output width, and a numeric map.  Its
`transform` raises the library's own error on an input whose width differs
from the fitted width, and otherwise returns exactly `n_features_out`
columns; `fixLen` forces the latter on the opaque map. -/

def fixLen (n : ℕ) (l : List ℚ) : List ℚ :=
  l.take n ++ List.replicate (n - l.length) 0

theorem fixLen_length (n : ℕ) (l : List ℚ) : (fixLen n l).length = n := by
  simp [fixLen]
  omega

structure FittedTransformer where
  n_features_in : ℕ
  n_features_out : ℕ
  f : List ℚ → List ℚ

/-- `transform`: the artifact's own width gate followed by its numeric map. -/
def FittedTransformer.transform (t : FittedTransformer) (x : List ℚ) :
    Option (List ℚ) :=
  if x.length = t.n_features_in then some (fixLen t.n_features_out (t.f x)) else none

structure FittedModel where
  n_features_in : ℕ
  g : List ℚ → ℚ

/-- `model.predict(X)[0]` on a single row. -/
def FittedModel.predict1 (m : FittedModel) (x : List ℚ) : Option ℚ :=
  if x.length = m.n_features_in then some (m.g x) else none

theorem transform_of_len_eq (t : FittedTransformer) (x : List ℚ)
    (h : x.length = t.n_features_in) :
    t.transform x = some (fixLen t.n_features_out (t.f x)) := by
  simp [FittedTransformer.transform, h]

theorem transform_of_len_ne (t : FittedTransformer) (x : List ℚ)
    (h : x.length ≠ t.n_features_in) : t.transform x = none := by
  simp [FittedTransformer.transform, h]

theorem predict1_of_len_eq (m : FittedModel) (x : List ℚ)
    (h : x.length = m.n_features_in) : m.predict1 x = some (m.g x) := by
  simp [FittedModel.predict1, h]

theorem predict1_of_len_ne (m : FittedModel) (x : List ℚ)
    (h : x.length ≠ m.n_features_in) : m.predict1 x = none := by
  simp [FittedModel.predict1, h]

/-! ## ModelManager -/

inductive ModelName
  | best_model_real
  | scaler_real
  | poly_real
  | selector_real
deriving DecidableEq, Repr

/-- A deserialized pickle is dynamically typed: either a transform stage or a
regressor. -/
inductive LoadedArtifact
  | transformer (t : FittedTransformer)
  | model (m : FittedModel)

/-- `ModelManager`: the mutable `self.models` dict and the `is_loaded` flag,
as a snapshot value. -/
structure ModelManager where
  models : ModelName → Option LoadedArtifact
  is_loaded : Bool

/-- `is_ready()` returns the bare `is_loaded` flag. -/
def ModelManager.is_ready (mgr : ModelManager) : Bool := mgr.is_loaded

/-- Python error surfaced by `get_model` when the manager is not loaded. -/
inductive PyError
  | valueErrorNotLoaded
deriving DecidableEq, Repr

/-- `get_model(name)`: raises `ValueError("Models not loaded yet")` whenever
`is_loaded` is false, else returns `self.models.get(name)`. -/
def ModelManager.get_model (mgr : ModelManager) (n : ModelName) :
    Except PyError (Option LoadedArtifact) :=
  if mgr.is_loaded = false then .error .valueErrorNotLoaded
  else .ok (mgr.models n)

def storeOf (b s p sel : Option LoadedArtifact) (loaded : Bool) : ModelManager :=
  { is_loaded := loaded
    models := fun n =>
      match n with
      | .best_model_real => b
      | .scaler_real => s
      | .poly_real => p
      | .selector_real => sel }

/-- The manager state after a fully successful `load_models`. -/
def mkLoadedManager (best : FittedModel) (scaler poly selector : FittedTransformer) :
    ModelManager :=
  storeOf (some (.model best)) (some (.transformer scaler))
    (some (.transformer poly)) (some (.transformer selector)) true

/-! ## load_models

`load_models` checks that the models directory exists, then loads the four
files in the order of the `model_files` dict (`best_model_real`,
`scaler_real`, `poly_real`, `selector_real`), returning `False` (leaving
`is_loaded` false, with the already-loaded entries kept in `self.models`) as
soon as a file is missing or fails to deserialize.  `FileState` describes one
artifact file of the durable store. -/

inductive FileState (α : Type)
  | missing
  | corrupt
  | loads (a : α)

/-- Whether the file would load successfully. -/
def FileState.loadsOk {α : Type} : FileState α → Bool
  | .loads _ => true
  | _ => false

structure ModelsDirState where
  dirExists : Bool
  best_real_loss_model : FileState FittedModel
  real_scaler : FileState FittedTransformer
  poly_real : FileState FittedTransformer
  selector_real : FileState FittedTransformer

def load_models (d : ModelsDirState) : ModelManager :=
  if d.dirExists = false then storeOf none none none none false
  else
    match d.best_real_loss_model with
    | .loads best =>
      match d.real_scaler with
      | .loads scaler =>
        match d.poly_real with
        | .loads poly =>
          match d.selector_real with
          | .loads selector => mkLoadedManager best scaler poly selector
          | _ => storeOf (some (.model best)) (some (.transformer scaler))
              (some (.transformer poly)) none false
        | _ => storeOf (some (.model best)) (some (.transformer scaler)) none none false
      | _ => storeOf (some (.model best)) none none none false
    | _ => storeOf none none none none false

/-- The readiness signal of the `/health` endpoint (`models_loaded`, and
`status: ok` vs `degraded`): it reports exactly `is_ready()`. -/
def health_ready (mgr : ModelManager) : Bool := mgr.is_ready

/-! ## Response models and derived metrics -/

structure LossBreakdown where
  total_loss_percentage : ℚ
  raw_material_loss : ℚ
  energy_loss : ℚ
  process_loss : ℚ
  waste_loss : ℚ
  efficiency_loss : ℚ
deriving DecidableEq, Repr

structure YieldAnalysis where
  overall_yield_percentage : ℚ
  theoretical_maximum_yield : ℚ
  actual_yield_percentage : ℚ
  yield_efficiency : ℚ
  process_efficiency : ℚ
  quality_score : ℚ
deriving DecidableEq, Repr

structure ProcessMetrics where
  total_processing_time_hours : ℚ
  energy_efficiency_percentage : ℚ
  chemical_efficiency_percentage : ℚ
  equipment_utilization_percentage : ℚ
  waste_generation_percentage : ℚ
  cost_per_unit : ℚ
deriving DecidableEq, Repr

structure EnhancedPredictionResponse where
  loss_percentage : ℚ
  yield_percentage : ℚ
  confidence_level : String
  loss_breakdown : LossBreakdown
  yield_analysis : YieldAnalysis
  process_metrics : ProcessMetrics
  processing_time_ms : ℚ
  timestamp : String
  request_id : String
  model_version : String
deriving DecidableEq, Repr

/-- Legacy response of `src/deployment/app.py` `/predict`. -/
structure PredictionResponse where
  prediction : ℚ
  confidence_level : String
  processing_time_ms : ℚ
  timestamp : String
deriving DecidableEq, Repr

/-! ### calculate_loss_breakdown -/

/-- `total_loss = max(0.1, min(prediction, 5.0))`. -/
def clampTotal (prediction : ℚ) : ℚ := max (1/10) (min prediction 5)

/-- `raw_material_modifier = min(1.0 + feed_ffa / 10.0, 2.0)`. -/
def raw_material_modifier (op : RefineryOperationInput) : ℚ :=
  min (1 + op.feed_ffa / 10) 2

/-- `energy_modifier = min(1.0 + vapour_pressure / 5.0, 2.0)`. -/
def energy_modifier (op : RefineryOperationInput) : ℚ :=
  min (1 + op.vapour_pressure / 5) 2

/-- `process_modifier = min(1.0 + moisture / 0.2, 2.0)`. -/
def process_modifier (op : RefineryOperationInput) : ℚ :=
  min (1 + op.moisture / (1/5)) 2

/-- `waste_modifier = min(1.0 + actual_feed_mt / 1000.0, 1.5)`. -/
def waste_modifier (op : RefineryOperationInput) : ℚ :=
  min (1 + op.actual_feed_mt / 1000) (3/2)

/-- `efficiency_modifier = 1.0`. -/
def efficiency_modifier (_op : RefineryOperationInput) : ℚ := 1

/-- `total_modifier`: base weights (0.30, 0.20, 0.25, 0.15, 0.10) times the
five modifiers, summed. -/
def total_modifier (op : RefineryOperationInput) : ℚ :=
  (3/10) * raw_material_modifier op + (1/5) * energy_modifier op +
  (1/4) * process_modifier op + (3/20) * waste_modifier op +
  (1/10) * efficiency_modifier op

/-- `max_individual_loss = min(total_loss * 0.6, 3.0)`. -/
def max_individual_loss (total_loss : ℚ) : ℚ := min (total_loss * (3/5)) 3

structure LossComponents where
  raw_material : ℚ
  energy : ℚ
  process : ℚ
  waste : ℚ
  efficiency : ℚ
deriving DecidableEq, Repr

/-- The five weighted-modified contributions, each individually capped at
`max_individual_loss` — the state right before renormalization. -/
def loss_components_capped (prediction : ℚ) (op : RefineryOperationInput) :
    LossComponents :=
  let total_loss := clampTotal prediction
  let cap := max_individual_loss total_loss
  { raw_material := min (total_loss * (3/10) * raw_material_modifier op / total_modifier op) cap
    energy := min (total_loss * (1/5) * energy_modifier op / total_modifier op) cap
    process := min (total_loss * (1/4) * process_modifier op / total_modifier op) cap
    waste := min (total_loss * (3/20) * waste_modifier op / total_modifier op) cap
    efficiency := min (total_loss * (1/10) * efficiency_modifier op / total_modifier op) cap }

/-- The renormalization step: when `current_sum > 0`, each capped value is
scaled by `total_loss / current_sum`. -/
def loss_components_final (prediction : ℚ) (op : RefineryOperationInput) :
    LossComponents :=
  let total_loss := clampTotal prediction
  let c := loss_components_capped prediction op
  let current_sum := c.raw_material + c.energy + c.process + c.waste + c.efficiency
  if 0 < current_sum then
    { raw_material := c.raw_material * (total_loss / current_sum)
      energy := c.energy * (total_loss / current_sum)
      process := c.process * (total_loss / current_sum)
      waste := c.waste * (total_loss / current_sum)
      efficiency := c.efficiency * (total_loss / current_sum) }
  else c

/-- `calculate_loss_breakdown`: the values are rounded to two decimals when
placed in the response model. -/
def calculate_loss_breakdown (prediction : ℚ) (op : RefineryOperationInput) :
    LossBreakdown :=
  let total_loss := clampTotal prediction
  let c := loss_components_final prediction op
  { total_loss_percentage := pyRound2 total_loss
    raw_material_loss := pyRound2 c.raw_material
    energy_loss := pyRound2 c.energy
    process_loss := pyRound2 c.process
    waste_loss := pyRound2 c.waste
    efficiency_loss := pyRound2 c.efficiency }

/-! ### calculate_yield_analysis and calculate_process_metrics -/

def calculate_yield_analysis (prediction : ℚ) (op : RefineryOperationInput) :
    YieldAnalysis :=
  let overall_yield := 100 - max 0 prediction
  let theoretical_maximum : ℚ := 98
  let actual_yield := overall_yield
  let yield_efficiency := actual_yield / theoretical_maximum * 100
  let process_efficiency := op.percentage_yield
  let quality_score := min 100 ((actual_yield + process_efficiency) / 2)
  { overall_yield_percentage := pyRound2 overall_yield
    theoretical_maximum_yield := theoretical_maximum
    actual_yield_percentage := pyRound2 actual_yield
    yield_efficiency := pyRound2 yield_efficiency
    process_efficiency := pyRound2 process_efficiency
    quality_score := pyRound2 quality_score }

def calculate_process_metrics (op : RefineryOperationInput) (prediction : ℚ) :
    ProcessMetrics :=
  let total_processing_time := op.actual_feed_mt / 50
  let energy_eff := max 60 (100 - op.vapour_pressure * 2)
  let chemical_eff :=
    max 70 (100 - (op.bleaching_earth_quantity + op.phosphoric_acid_quantity) / 100)
  let equipment_util := min 95 (80 + op.percentage_yield / 5)
  let waste_gen := max 0 (op.moisture * 2 + op.feed_ffa * (1/2))
  let cost_per_unit := op.actual_feed_mt * (1 + prediction / 100) / 1000
  { total_processing_time_hours := pyRound2 total_processing_time
    energy_efficiency_percentage := pyRound2 energy_eff
    chemical_efficiency_percentage := pyRound2 chemical_eff
    equipment_utilization_percentage := pyRound2 equipment_util
    waste_generation_percentage := pyRound2 waste_gen
    cost_per_unit := pyRound2 cost_per_unit }

/-! ## Normalization and confidence -/

/-- The raw-to-percentage conversion of `enhance_prediction` when
`convert_to_percentage` is set: divide by feed mass, scale to percent, clamp
into [0.1, 5.0]; on non-positive feed mass fall back to the fixed default
`1.0` instead of dividing. -/
def clampPrediction (raw_prediction feed_amount : ℚ) : ℚ :=
  if 0 < feed_amount then max (1/10) (min (raw_prediction / feed_amount * 100) 5)
  else 1

/-- `confidence_factors`: how many of the five plausibility conditions hold. -/
def confidence_count (prediction : ℚ) (d : RefineryOperationInput)
    (feed_amount : ℚ) : ℕ :=
  (if |prediction - 2| < 1 then 1 else 0) +
  (if d.feed_ffa < 3 then 1 else 0) +
  (if d.moisture < 3/10 then 1 else 0) +
  (if 80 < d.percentage_yield then 1 else 0) +
  (if 50 < feed_amount then 1 else 0)

/-- `confidence_score = sum(confidence_factors) / len(confidence_factors)`. -/
def confidence_score (prediction : ℚ) (d : RefineryOperationInput)
    (feed_amount : ℚ) : ℚ :=
  (confidence_count prediction d feed_amount : ℚ) / 5

/-- The score buckets: `high` at ≥ 0.8, `medium` at ≥ 0.6, else `low`. -/
def confidence_level_of (score : ℚ) : String :=
  if 4/5 ≤ score then "high"
  else if 3/5 ≤ score then "medium"
  else "low"

/-! ## Request-time errors

The handlers surface: 503 when `is_ready()` is false or one of the four
models is `None`; 422 when pydantic rejects the request body; 500 from the
blanket `except Exception` that wraps anything raised inside the handler — in
particular an artifact's own width rejection at some pipeline stage, and the
`NameError` on the unassigned `feed_amount` local (`ErrCause` records which
underlying exception the 500 wraps).  A loaded object of the wrong dynamic
kind would also surface through the blanket handler (`attributeError`); no
claim exercises that corner.  The handler's 400 null-value check cannot fire
here: the embedded numeric fields are total. -/

inductive PipelineStage
  | polyStage
  | selectorStage
  | scalerStage
  | modelStage
deriving DecidableEq, Repr

inductive ErrCause
  | artifactWidth (s : PipelineStage)
  | nameErrorFeedAmount
  | attributeError
  | batchFailed
deriving DecidableEq, Repr

inductive ApiError
  | notReady
  | modelsUnavailable
  | validationError
  | internal (c : ErrCause)
deriving DecidableEq, Repr

/-- The HTTP status each failure is surfaced with. -/
def ApiError.statusCode : ApiError → ℕ
  | .notReady => 503
  | .modelsUnavailable => 503
  | .validationError => 422
  | .internal _ => 500

/-- Request-scoped nondeterministic inputs of a handler invocation: the wall
clock and the fresh `uuid4`, which only feed the response metadata fields. -/
structure ReqContext where
  timestamp : String
  request_id : String
  processing_ms : ℚ
deriving DecidableEq, Repr

/-! ## enhance_prediction (src/render_deployment/app.py) -/

/-- The value `best_model.predict(input_scaled)[0]` takes when every stage
width agrees (each stage then being the artifact's numeric map forced to its
declared output width). -/
def pipeline_raw_value (best : FittedModel)
    (scaler poly selector : FittedTransformer) (d : RefineryOperationInput) : ℚ :=
  best.g (fixLen scaler.n_features_out (scaler.f
    (fixLen selector.n_features_out (selector.f
      (fixLen poly.n_features_out (poly.f d.toFeatureList))))))

def enhance_prediction (ctx : ReqContext) (mgr : ModelManager)
    (data : RefineryOperationInput) : Except ApiError EnhancedPredictionResponse :=
  if mgr.is_ready = false then .error .notReady
  else
    match mgr.models .best_model_real, mgr.models .scaler_real,
          mgr.models .poly_real, mgr.models .selector_real with
    | some (.model best_model), some (.transformer scaler),
      some (.transformer poly), some (.transformer selector) =>
      match poly.transform data.toFeatureList with
      | none => .error (.internal (.artifactWidth .polyStage))
      | some input_poly =>
        match selector.transform input_poly with
        | none => .error (.internal (.artifactWidth .selectorStage))
        | some input_selected =>
          match scaler.transform input_selected with
          | none => .error (.internal (.artifactWidth .scalerStage))
          | some input_scaled =>
            match best_model.predict1 input_scaled with
            | none => .error (.internal (.artifactWidth .modelStage))
            | some raw_prediction =>
              if data.convert_to_percentage then
                let feed_amount := data.actual_feed_mt
                let prediction := clampPrediction raw_prediction feed_amount
                .ok { loss_percentage := pyRound2 prediction
                      yield_percentage := pyRound2 (100 - prediction)
                      confidence_level :=
                        confidence_level_of (confidence_score prediction data feed_amount)
                      loss_breakdown := calculate_loss_breakdown prediction data
                      yield_analysis := calculate_yield_analysis prediction data
                      process_metrics := calculate_process_metrics data prediction
                      processing_time_ms := ctx.processing_ms
                      timestamp := ctx.timestamp
                      request_id := ctx.request_id
                      model_version := "3.0.0" }
              else
                -- the metric-tons branch reads the local `feed_amount`, which is
                -- assigned only inside the conversion branch above: Python raises
                -- NameError, which the handler's `except Exception` maps to a
                -- 500 internal failure
                .error (.internal .nameErrorFeedAmount)
    | none, _, _, _ => .error .modelsUnavailable
    | _, none, _, _ => .error .modelsUnavailable
    | _, _, none, _ => .error .modelsUnavailable
    | _, _, _, none => .error .modelsUnavailable
    | _, _, _, _ => .error (.internal .attributeError)

/-- The `/predict` endpoint: pydantic range validation, then the handler. -/
def predict_endpoint (ctx : ReqContext) (mgr : ModelManager)
    (data : RefineryOperationInput) : Except ApiError EnhancedPredictionResponse :=
  if validInput data = false then .error .validationError
  else enhance_prediction ctx mgr data

/-! ## Legacy predict handler (src/deployment/app.py)

Identical pipeline, but the raw model output is surfaced as the prediction
with no normalization and no clamp, and confidence comes from
`abs(prediction)` thresholds. -/

def deployment_predict_loss (ctx : ReqContext) (mgr : ModelManager)
    (data : RefineryOperationInput) : Except ApiError PredictionResponse :=
  if mgr.is_ready = false then .error .notReady
  else
    match mgr.models .best_model_real, mgr.models .scaler_real,
          mgr.models .poly_real, mgr.models .selector_real with
    | some (.model best_model), some (.transformer scaler),
      some (.transformer poly), some (.transformer selector) =>
      match poly.transform data.toFeatureList with
      | none => .error (.internal (.artifactWidth .polyStage))
      | some input_poly =>
        match selector.transform input_poly with
        | none => .error (.internal (.artifactWidth .selectorStage))
        | some input_selected =>
          match scaler.transform input_selected with
          | none => .error (.internal (.artifactWidth .scalerStage))
          | some input_scaled =>
            match best_model.predict1 input_scaled with
            | none => .error (.internal (.artifactWidth .modelStage))
            | some prediction =>
              .ok { prediction := prediction
                    confidence_level :=
                      if |prediction| < 10 then "high"
                      else if |prediction| < 20 then "medium" else "low"
                    processing_time_ms := ctx.processing_ms
                    timestamp := ctx.timestamp }
    | none, _, _, _ => .error .modelsUnavailable
    | _, none, _, _ => .error .modelsUnavailable
    | _, _, none, _ => .error .modelsUnavailable
    | _, _, _, none => .error .modelsUnavailable
    | _, _, _, _ => .error (.internal .attributeError)

/-! ## Batch endpoint (src/render_deployment/app.py, /batch/predict)

The handler runs `enhance_prediction` over the items inside one `try`; any
exception — including an `HTTPException` raised for one item — aborts the
loop and is re-raised as a single 500 `Batch prediction failed` error, so no
partial results survive.  Statistics fields of the response are elided: no
claim refers to them. -/

structure BatchPredictionResponse where
  batch_id : String
  total_predictions : ℕ
  predictions : List EnhancedPredictionResponse
  processing_time_ms : ℚ
  timestamp : String
deriving DecidableEq, Repr

def batch_predict (ctx : ReqContext) (mgr : ModelManager) :
    List RefineryOperationInput → Except ApiError (List EnhancedPredictionResponse)
  | [] => .ok []
  | d :: rest =>
    match enhance_prediction ctx mgr d with
    | .error _ => .error (.internal .batchFailed)
    | .ok r =>
      match batch_predict ctx mgr rest with
      | .error e => .error e
      | .ok rs => .ok (r :: rs)

/-- `/batch/predict`: pydantic validates every item and the `max_items=100`
bound before the handler body runs. -/
def batch_endpoint (ctx : ReqContext) (mgr : ModelManager)
    (reqs : List RefineryOperationInput) : Except ApiError BatchPredictionResponse :=
  if (!reqs.all validInput) || decide (100 < reqs.length) then .error .validationError
  else
    match batch_predict ctx mgr reqs with
    | .error e => .error e
    | .ok rs =>
      .ok { batch_id := ctx.request_id
            total_predictions := rs.length
            predictions := rs
            processing_time_ms := ctx.processing_ms
            timestamp := ctx.timestamp }

/-! ## models_status endpoint -/

structure ModelsStatusReport where
  models_loaded : Bool
  best_model_real : Bool
  scaler_real : Bool
  poly_real : Bool
  selector_real : Bool
deriving DecidableEq, Repr

/-- `/models/status` builds its report by calling `get_model` for each of the
four names with no readiness guard, so the `ValueError` raised when models
are not loaded escapes the handler. -/
def models_status (mgr : ModelManager) : Except PyError ModelsStatusReport :=
  match mgr.get_model .best_model_real with
  | .error e => .error e
  | .ok b =>
    match mgr.get_model .scaler_real with
    | .error e => .error e
    | .ok s =>
      match mgr.get_model .poly_real with
      | .error e => .error e
      | .ok p =>
        match mgr.get_model .selector_real with
        | .error e => .error e
        | .ok sel =>
          .ok { models_loaded := mgr.is_ready
                best_model_real := b.isSome
                scaler_real := s.isSome
                poly_real := p.isSome
                selector_real := sel.isSome }

/-! ## Width compatibility -/

/-- Mutual width compatibility of the four fitted artifacts in pipeline
order: 14 canonical inputs into the expander, then expander → selector →
scaler → model. -/
def widths_chain (best : FittedModel) (scaler poly selector : FittedTransformer) : Prop :=
  poly.n_features_in = 14 ∧
  selector.n_features_in = poly.n_features_out ∧
  scaler.n_features_in = selector.n_features_out ∧
  best.n_features_in = scaler.n_features_out

instance (best : FittedModel) (scaler poly selector : FittedTransformer) :
    Decidable (widths_chain best scaler poly selector) := by
  unfold widths_chain
  infer_instance

/-- On a loaded manager whose artifact widths chain, `enhance_prediction`
reduces to the conversion branch on the raw pipeline value (and to the
`NameError` failure in the metric-tons mode). -/
theorem enhance_eq_of_chain (ctx : ReqContext) (best : FittedModel)
    (scaler poly selector : FittedTransformer) (d : RefineryOperationInput)
    (hchain : widths_chain best scaler poly selector) :
    enhance_prediction ctx (mkLoadedManager best scaler poly selector) d =
      if d.convert_to_percentage then
        .ok { loss_percentage :=
                pyRound2 (clampPrediction (pipeline_raw_value best scaler poly selector d)
                  d.actual_feed_mt)
              yield_percentage :=
                pyRound2 (100 - clampPrediction (pipeline_raw_value best scaler poly selector d)
                  d.actual_feed_mt)
              confidence_level :=
                confidence_level_of (confidence_score
                  (clampPrediction (pipeline_raw_value best scaler poly selector d)
                    d.actual_feed_mt) d d.actual_feed_mt)
              loss_breakdown :=
                calculate_loss_breakdown
                  (clampPrediction (pipeline_raw_value best scaler poly selector d)
                    d.actual_feed_mt) d
              yield_analysis :=
                calculate_yield_analysis
                  (clampPrediction (pipeline_raw_value best scaler poly selector d)
                    d.actual_feed_mt) d
              process_metrics :=
                calculate_process_metrics d
                  (clampPrediction (pipeline_raw_value best scaler poly selector d)
                    d.actual_feed_mt)
              processing_time_ms := ctx.processing_ms
              timestamp := ctx.timestamp
              request_id := ctx.request_id
              model_version := "3.0.0" }
      else .error (.internal .nameErrorFeedAmount) := by
  obtain ⟨h1, h2, h3, h4⟩ := hchain
  unfold enhance_prediction
  simp only [mkLoadedManager, storeOf, ModelManager.is_ready]
  rw [transform_of_len_eq poly _ (by rw [toFeatureList_length, h1])]
  dsimp only
  rw [transform_of_len_eq selector _ (by rw [fixLen_length, h2])]
  dsimp only
  rw [transform_of_len_eq scaler _ (by rw [fixLen_length, h3])]
  dsimp only
  rw [predict1_of_len_eq best _ (by rw [fixLen_length, h4])]
  rfl

/-- The same reduction for the legacy deployment handler. -/
theorem deployment_eq_of_chain (ctx : ReqContext) (best : FittedModel)
    (scaler poly selector : FittedTransformer) (d : RefineryOperationInput)
    (hchain : widths_chain best scaler poly selector) :
    deployment_predict_loss ctx (mkLoadedManager best scaler poly selector) d =
      .ok { prediction := pipeline_raw_value best scaler poly selector d
            confidence_level :=
              if |pipeline_raw_value best scaler poly selector d| < 10 then "high"
              else if |pipeline_raw_value best scaler poly selector d| < 20 then "medium"
              else "low"
            processing_time_ms := ctx.processing_ms
            timestamp := ctx.timestamp } := by
  obtain ⟨h1, h2, h3, h4⟩ := hchain
  unfold deployment_predict_loss
  simp only [mkLoadedManager, storeOf, ModelManager.is_ready]
  rw [transform_of_len_eq poly _ (by rw [toFeatureList_length, h1])]
  dsimp only
  rw [transform_of_len_eq selector _ (by rw [fixLen_length, h2])]
  dsimp only
  rw [transform_of_len_eq scaler _ (by rw [fixLen_length, h3])]
  dsimp only
  rw [predict1_of_len_eq best _ (by rw [fixLen_length, h4])]
  rfl

/-! ## Concrete fixtures used by witnesses and counterexamples -/

/-- A 14 → 14 identity transform stage. -/
def idT : FittedTransformer :=
  { n_features_in := 14, n_features_out := 14, f := fun x => x }

/-- A fitted selector whose output cardinality is 15 — the training-serving
skew this repository's own fix script diagnoses. -/
def selector15 : FittedTransformer :=
  { n_features_in := 14, n_features_out := 15, f := fun x => x ++ [0] }

/-- A regressor over 14 features returning a constant raw value. -/
def constModel (c : ℚ) : FittedModel := { n_features_in := 14, g := fun _ => c }

def ctx0 : ReqContext := { timestamp := "t0", request_id := "r0", processing_ms := 0 }

def ctx1 : ReqContext := { timestamp := "t1", request_id := "r1", processing_ms := 7 }

/-- The end-to-end scenario record of the spec (§8), with the default
`convert_to_percentage = true`. -/
def sampleRecord : RefineryOperationInput :=
  { percentage_yield := 171/2
    gravity := 17/20
    vapour_pressure := 23/10
    ten_percent_distillation := 180
    fraction_end_point := 350
    actual_feed_mt := 201/2
    feed_ffa := 6/5
    moisture := 1/2
    bleaching_earth_quantity := 15
    phosphoric_acid_quantity := 5/2
    citric_acid_quantity := 9/5
    phenamol_quantity := 4/5
    fractionation_feed := 95
    phenomol_consumption := 3/5 }

/-- A record satisfying all five plausibility-checklist conditions when the
raw model output is the constant 2 (moisture lowered below the 0.3
threshold). -/
def recordW : RefineryOperationInput := { sampleRecord with moisture := 1/5 }

/-- When the artifact widths do not chain, `enhance_prediction` fails at the
first disagreeing stage with the artifact's own width rejection wrapped into
the generic 500 internal error. -/
theorem enhance_err_of_not_chain (ctx : ReqContext) (best : FittedModel)
    (scaler poly selector : FittedTransformer) (d : RefineryOperationInput)
    (hn : ¬ widths_chain best scaler poly selector) :
    ∃ st, enhance_prediction ctx (mkLoadedManager best scaler poly selector) d =
      .error (.internal (.artifactWidth st)) := by
  by_cases h1 : poly.n_features_in = 14
  · by_cases h2 : selector.n_features_in = poly.n_features_out
    · by_cases h3 : scaler.n_features_in = selector.n_features_out
      · by_cases h4 : best.n_features_in = scaler.n_features_out
        · exact absurd ⟨h1, h2, h3, h4⟩ hn
        · refine ⟨.modelStage, ?_⟩
          unfold enhance_prediction
          simp only [mkLoadedManager, storeOf, ModelManager.is_ready]
          rw [transform_of_len_eq poly _ (by rw [toFeatureList_length, h1])]
          dsimp only
          rw [transform_of_len_eq selector _ (by rw [fixLen_length, h2])]
          dsimp only
          rw [transform_of_len_eq scaler _ (by rw [fixLen_length, h3])]
          dsimp only
          rw [predict1_of_len_ne best _ (by rw [fixLen_length]; exact fun h => h4 h.symm)]
          rfl
      · refine ⟨.scalerStage, ?_⟩
        unfold enhance_prediction
        simp only [mkLoadedManager, storeOf, ModelManager.is_ready]
        rw [transform_of_len_eq poly _ (by rw [toFeatureList_length, h1])]
        dsimp only
        rw [transform_of_len_eq selector _ (by rw [fixLen_length, h2])]
        dsimp only
        rw [transform_of_len_ne scaler _ (by rw [fixLen_length]; exact fun h => h3 h.symm)]
        rfl
    · refine ⟨.selectorStage, ?_⟩
      unfold enhance_prediction
      simp only [mkLoadedManager, storeOf, ModelManager.is_ready]
      rw [transform_of_len_eq poly _ (by rw [toFeatureList_length, h1])]
      dsimp only
      rw [transform_of_len_ne selector _ (by rw [fixLen_length]; exact fun h => h2 h.symm)]
      rfl
  · refine ⟨.polyStage, ?_⟩
    unfold enhance_prediction
    simp only [mkLoadedManager, storeOf, ModelManager.is_ready]
    rw [transform_of_len_ne poly _ (by rw [toFeatureList_length]; exact fun h => h1 h.symm)]
    rfl

/-- **C1.** For a valid record in the percentage mode, on a loaded manager:
the call succeeds exactly when the artifact widths chain (so on success the
vector reaching the model has width `model.n_features_in`); on any width
disagreement it fails — but with the artifact's own internal rejection
wrapped into the generic 500 internal error, not with a pipeline-issued
`WidthMismatch` surfaced as a 503 service-unavailable-class failure as the
spec demands; the pipeline itself performs no explicit width check. -/
theorem C1_pipeline_width_contract (ctx : ReqContext) (best : FittedModel)
    (scaler poly selector : FittedTransformer) (d : RefineryOperationInput)
    (hconv : d.convert_to_percentage = true) :
    ((∃ r, enhance_prediction ctx (mkLoadedManager best scaler poly selector) d = .ok r) ↔
      widths_chain best scaler poly selector) ∧
    (∀ e, enhance_prediction ctx (mkLoadedManager best scaler poly selector) d = .error e →
      (∃ st, e = .internal (.artifactWidth st)) ∧ e.statusCode = 500) := by
  by_cases hchain : widths_chain best scaler poly selector
  · rw [enhance_eq_of_chain ctx best scaler poly selector d hchain, hconv]
    simp only [if_true]
    refine ⟨⟨fun _ => hchain, fun _ => ⟨_, rfl⟩⟩, fun e he => ?_⟩
    cases he
  · obtain ⟨st, he⟩ := enhance_err_of_not_chain ctx best scaler poly selector d hchain
    rw [he]
    constructor
    · constructor
      · rintro ⟨r, hr⟩
        cases hr
      · intro hc
        exact absurd hc hchain
    · intro e he'
      have hee : ApiError.internal (.artifactWidth st) = e := by injection he'
      subst hee
      exact ⟨⟨st, rfl⟩, rfl⟩

/-- **C1, witness.** The spec's end-to-end sample record on a compatible
artifact set: the hypotheses of `C1_pipeline_width_contract` hold and the
call succeeds. -/
theorem C1_pipeline_width_contract_witness :
    sampleRecord.convert_to_percentage = true ∧
    (∃ r, enhance_prediction ctx0 (mkLoadedManager (constModel 2) idT idT idT)
      sampleRecord = .ok r) :=
  ⟨rfl, (C1_pipeline_width_contract ctx0 (constModel 2) idT idT idT sampleRecord rfl).1.mpr
    (by with_unfolding_all decide)⟩

/-- **C1, counterexample.** The repository's own defect: a selector emitting
15 features into a scaler fitted on 14.  On the spec's sample record the call
fails with the scaler artifact's own width rejection wrapped into the generic
500 internal failure — the pipeline issued no `WidthMismatch`, and the
surfaced class is 500, not the 503 service-unavailable class the spec
assigns to `WidthMismatch`. -/
theorem C1_counterexample :
    enhance_prediction ctx0 (mkLoadedManager (constModel 2) idT idT selector15)
        sampleRecord = .error (.internal (.artifactWidth .scalerStage)) ∧
    (ApiError.internal (.artifactWidth .scalerStage)).statusCode = 500 ∧
    (ApiError.internal (.artifactWidth .scalerStage)).statusCode ≠ 503 :=
  ⟨by with_unfolding_all rfl, rfl, by decide⟩

/-- **C2** (amended form). `load_models` succeeds — and the health/readiness
signal is true — exactly when the directory exists and all four artifact
files deserialize; no width-compatibility condition enters anywhere.  The
`selector.output_width == scaler.expected_input_width` check exists only in
the offline fix script, not on the load path. -/
theorem C2_load_no_compat_check (d : ModelsDirState) :
    ((load_models d).is_loaded = true ↔
      (d.dirExists = true ∧ d.best_real_loss_model.loadsOk = true ∧
       d.real_scaler.loadsOk = true ∧ d.poly_real.loadsOk = true ∧
       d.selector_real.loadsOk = true)) ∧
    health_ready (load_models d) = (load_models d).is_loaded := by
  obtain ⟨de, bb, ss, pp, sel⟩ := d
  cases de <;> cases bb <;> cases ss <;> cases pp <;> cases sel <;>
    simp [load_models, storeOf, mkLoadedManager, FileState.loadsOk, health_ready,
      ModelManager.is_ready]

/-- A store whose four files all load but whose fitted widths are mutually
incompatible (selector outputs 15, scaler expects 14). -/
def dirIncompatible : ModelsDirState :=
  { dirExists := true
    best_real_loss_model := .loads (constModel 2)
    real_scaler := .loads idT
    poly_real := .loads idT
    selector_real := .loads selector15 }

/-- **C2, counterexample.** Loading the incompatible store succeeds and the
readiness signal is true, although `selector.output_width (15) ≠
scaler.expected_input_width (14)`: no `IncompatibleArtifacts` failure exists
at load time and readiness does not include any compatibility check. -/
theorem C2_counterexample :
    (load_models dirIncompatible).is_loaded = true ∧
    health_ready (load_models dirIncompatible) = true ∧
    selector15.n_features_out = 15 ∧ idT.n_features_in = 14 :=
  ⟨by with_unfolding_all rfl, by with_unfolding_all rfl, rfl, rfl⟩

/-- **C2, witness** for the amended characterization, at a store that loads
successfully. -/
theorem C2_load_no_compat_check_witness :
    (load_models dirIncompatible).is_loaded = true ↔
      (dirIncompatible.dirExists = true ∧
       dirIncompatible.best_real_loss_model.loadsOk = true ∧
       dirIncompatible.real_scaler.loadsOk = true ∧
       dirIncompatible.poly_real.loadsOk = true ∧
       dirIncompatible.selector_real.loadsOk = true) :=
  (C2_load_no_compat_check dirIncompatible).1

/-- **C10.** `models_status` raises the `get_model` `ValueError` exactly when
the artifacts are not loaded, and only after a fully successful load does it
return the per-model report. -/
theorem C10_models_status_requires_load (mgr : ModelManager) :
    ((∃ e, models_status mgr = .error e) ↔ mgr.is_loaded = false) ∧
    (mgr.is_loaded = true →
      models_status mgr = .ok
        { models_loaded := true
          best_model_real := (mgr.models .best_model_real).isSome
          scaler_real := (mgr.models .scaler_real).isSome
          poly_real := (mgr.models .poly_real).isSome
          selector_real := (mgr.models .selector_real).isSome }) := by
  cases h : mgr.is_loaded <;>
    simp [models_status, ModelManager.get_model, ModelManager.is_ready, h]
  exact ⟨.valueErrorNotLoaded, trivial⟩

/-- **C10, witness**: on the unloaded empty manager the endpoint errors; on a
loaded manager it reports. -/
theorem C10_models_status_requires_load_witness :
    (∃ e, models_status (storeOf none none none none false) = .error e) ↔
      (storeOf none none none none false).is_loaded = false :=
  (C10_models_status_requires_load (storeOf none none none none false)).1

/-- Any successful `enhance_prediction` comes out of the percentage branch:
`convert_to_percentage` was set and the surfaced loss is the rounded clamped
normalization of some raw model output. -/
theorem enhance_ok_cases (ctx : ReqContext) (mgr : ModelManager)
    (d : RefineryOperationInput) (r : EnhancedPredictionResponse)
    (h : enhance_prediction ctx mgr d = .ok r) :
    d.convert_to_percentage = true ∧
    ∃ raw, r.loss_percentage = pyRound2 (clampPrediction raw d.actual_feed_mt) := by
  unfold enhance_prediction at h
  split at h
  · cases h
  · split at h
    · rename_i best_model scaler poly selector
      split at h
      · cases h
      · split at h
        · cases h
        · split at h
          · cases h
          · split at h
            · cases h
            · rename_i raw_prediction hpred
              split at h
              · rename_i hcv
                refine ⟨hcv, raw_prediction, ?_⟩
                have := congrArg (fun x => match x with
                  | Except.ok r => r.loss_percentage
                  | Except.error _ => 0) h
                simpa using this.symm
              · cases h
    · cases h
    · cases h
    · cases h
    · cases h
    · cases h

/-- The percentage-mode normalization always lands in [0.1, 5]. -/
theorem clampPrediction_bounds (raw feed : ℚ) :
    1/10 ≤ clampPrediction raw feed ∧ clampPrediction raw feed ≤ 5 := by
  unfold clampPrediction
  split_ifs
  · exact ⟨le_max_left _ _, max_le (by norm_num) (min_le_right _ _)⟩
  · norm_num

/-- Two-decimal rounding keeps [0.1, 5]. -/
theorem pyRound2_bounds_unit (q : ℚ) (h1 : 1/10 ≤ q) (h2 : q ≤ 5) :
    1/10 ≤ pyRound2 q ∧ pyRound2 q ≤ 5 := by
  have h := pyRound2_mem 10 500 q (by push_cast; linarith) (by push_cast; linarith)
  constructor
  · have := h.1
    push_cast at this
    linarith
  · have := h.2
    push_cast at this
    linarith

/-- Every loss percentage surfaced by the enhanced prediction handler lies in
[0.1, 5.0]: the clamp (or the 1.0 zero-feed fallback) is applied on every
path that returns a response. -/
theorem enhance_loss_percentage_clamped (ctx : ReqContext) (mgr : ModelManager)
    (d : RefineryOperationInput) (r : EnhancedPredictionResponse)
    (h : enhance_prediction ctx mgr d = .ok r) :
    1/10 ≤ r.loss_percentage ∧ r.loss_percentage ≤ 5 := by
  obtain ⟨-, raw, hl⟩ := enhance_ok_cases ctx mgr d r h
  rw [hl]
  have hb := clampPrediction_bounds raw d.actual_feed_mt
  exact pyRound2_bounds_unit _ hb.1 hb.2

/-- The clamped prediction of the witness scenario: constant raw output 2 on
`recordW` (feed mass 100.5). -/
def predictionW : ℚ :=
  clampPrediction (pipeline_raw_value (constModel 2) idT idT idT recordW)
    recordW.actual_feed_mt

/-- The full concrete response of the witness scenario. -/
def respW : EnhancedPredictionResponse :=
  { loss_percentage := pyRound2 predictionW
    yield_percentage := pyRound2 (100 - predictionW)
    confidence_level :=
      confidence_level_of (confidence_score predictionW recordW recordW.actual_feed_mt)
    loss_breakdown := calculate_loss_breakdown predictionW recordW
    yield_analysis := calculate_yield_analysis predictionW recordW
    process_metrics := calculate_process_metrics recordW predictionW
    processing_time_ms := ctx0.processing_ms
    timestamp := ctx0.timestamp
    request_id := ctx0.request_id
    model_version := "3.0.0" }

/-! ## Vercel handler (src/deployment/vercel_deployment/api/index.py)

The serverless variant keeps its artifacts in a module-level cache dict with
no `is_loaded` flag.  Its `/predict` never fails: with an empty cache or a
missing entry it answers the constant fallback 2.0 with confidence `medium`
(the source's `if not models` branch and its `all([...])`-false branch return
the same pair, so they are one arm here); when the pipeline section raises —
a stage's own width rejection, or a wrong-kind object's attribute error — the
inner `except` answers the bounded heuristic
`max(0.5, min(3.5, 2.0 + feed_ffa*0.2 + moisture*2.0))`; otherwise the raw
prediction is clamped, normalized by feed mass when that is positive. -/

structure VercelCache where
  best_model_real : Option LoadedArtifact
  scaler_real : Option LoadedArtifact
  poly_real : Option LoadedArtifact
  selector_real : Option LoadedArtifact

/-- The handler's intelligent fallback on an inner-pipeline exception. -/
def vercel_fallback (data : RefineryOperationInput) : ℚ :=
  max (1/2) (min (7/2) (2 + data.feed_ffa * (1/5) + data.moisture * 2))

/-- The (prediction, confidence) pair computed by the vercel `/predict`
handler before response building. -/
def vercel_prediction_confidence (cache : VercelCache)
    (data : RefineryOperationInput) : ℚ × String :=
  match cache.best_model_real, cache.scaler_real,
        cache.poly_real, cache.selector_real with
  | some (.model best_model), some (.transformer scaler),
    some (.transformer poly), some (.transformer selector) =>
    match poly.transform data.toFeatureList with
    | none => (vercel_fallback data, "medium")
    | some input_transformed =>
      match selector.transform input_transformed with
      | none => (vercel_fallback data, "medium")
      | some input_selected =>
        match scaler.transform input_selected with
        | none => (vercel_fallback data, "medium")
        | some input_scaled =>
          match best_model.predict1 input_scaled with
          | none => (vercel_fallback data, "medium")
          | some raw_prediction =>
            let prediction :=
              if 0 < data.actual_feed_mt then
                max (1/10) (min (raw_prediction / data.actual_feed_mt * 100) 5)
              else max (1/10) (min raw_prediction 5)
            (prediction, if |prediction - 2| < 1 then "high" else "medium")
  | none, _, _, _ => (2, "medium")
  | _, none, _, _ => (2, "medium")
  | _, _, none, _ => (2, "medium")
  | _, _, _, none => (2, "medium")
  | _, _, _, _ => (vercel_fallback data, "medium")

structure VercelPredictionResponse where
  loss_percentage : ℚ
  yield_percentage : ℚ
  confidence_level : String
  processing_time_ms : ℚ
  timestamp : String
  request_id : String
deriving DecidableEq, Repr

def vercel_predict_loss (ctx : ReqContext) (cache : VercelCache)
    (data : RefineryOperationInput) : VercelPredictionResponse :=
  { loss_percentage := pyRound2 (vercel_prediction_confidence cache data).1
    yield_percentage := pyRound2 (100 - (vercel_prediction_confidence cache data).1)
    confidence_level := (vercel_prediction_confidence cache data).2
    processing_time_ms := ctx.processing_ms
    timestamp := ctx.timestamp
    request_id := ctx.request_id }

/-- Every branch of the vercel handler produces a prediction in [0.1, 5]:
the clamp on the pipeline path, the constant 2.0 on missing artifacts, and
the [0.5, 3.5]-bounded heuristic on an inner exception. -/
theorem vercel_prediction_bounds (cache : VercelCache) (d : RefineryOperationInput) :
    1/10 ≤ (vercel_prediction_confidence cache d).1 ∧
    (vercel_prediction_confidence cache d).1 ≤ 5 := by
  have h2 : (1/10 : ℚ) ≤ 2 ∧ (2 : ℚ) ≤ 5 := by norm_num
  have hfb : 1/10 ≤ vercel_fallback d ∧ vercel_fallback d ≤ 5 := by
    unfold vercel_fallback
    constructor
    · exact le_trans (by norm_num) (le_max_left _ _)
    · exact max_le (by norm_num) (le_trans (min_le_left _ _) (by norm_num))
  unfold vercel_prediction_confidence
  obtain ⟨ob, os, op2, osel⟩ := cache
  dsimp only
  rcases ob with _ | (tb | mb) <;> rcases os with _ | (ts | ms) <;>
    rcases op2 with _ | (tp | mp) <;> rcases osel with _ | (tsel | msel) <;>
    first
      | exact h2
      | exact hfb
      | skip
  dsimp only
  generalize tp.transform d.toFeatureList = o1
  rcases o1 with _ | l1
  · exact hfb
  · dsimp only
    generalize tsel.transform l1 = o2
    rcases o2 with _ | l2
    · exact hfb
    · dsimp only
      generalize ts.transform l2 = o3
      rcases o3 with _ | l3
      · exact hfb
      · dsimp only
        generalize mb.predict1 l3 = o4
        rcases o4 with _ | raw
        · exact hfb
        · dsimp only
          split_ifs with hfeed
          · exact ⟨le_max_left _ _, max_le (by norm_num) (min_le_right _ _)⟩
          · exact ⟨le_max_left _ _, max_le (by norm_num) (min_le_right _ _)⟩

/-- **C3** (amended form).  On the two paths that surface a loss percentage —
the render enhanced handler and the vercel handler — the surfaced value
always lies in [0.1, 5.0]: the enhanced handler clamps (or takes the 1.0
zero-feed fallback) on every success path, and every vercel branch is
bounded (clamp, constant 2.0, or the [0.5, 3.5] heuristic).  The legacy
`/predict` of `src/deployment/app.py` is the exception, surfacing the raw
output unclamped (see the counterexample). -/
theorem C3_loss_clamped_surfaced_paths (ctx : ReqContext) (mgr : ModelManager)
    (cache : VercelCache) (d : RefineryOperationInput) :
    (∀ r, enhance_prediction ctx mgr d = .ok r →
      1/10 ≤ r.loss_percentage ∧ r.loss_percentage ≤ 5) ∧
    (1/10 ≤ (vercel_predict_loss ctx cache d).loss_percentage ∧
     (vercel_predict_loss ctx cache d).loss_percentage ≤ 5) := by
  constructor
  · intro r h
    exact enhance_loss_percentage_clamped ctx mgr d r h
  · unfold vercel_predict_loss
    dsimp only
    exact pyRound2_bounds_unit _ (vercel_prediction_bounds cache d).1
      (vercel_prediction_bounds cache d).2

/-- The vercel cache mirroring the witness manager. -/
def cacheW : VercelCache :=
  { best_model_real := some (.model (constModel 2))
    scaler_real := some (.transformer idT)
    poly_real := some (.transformer idT)
    selector_real := some (.transformer idT) }

/-- **C3, witness.**  A concrete successful call of each handler whose
surfaced loss lies in [0.1, 5.0]. -/
theorem C3_loss_clamped_surfaced_paths_witness :
    enhance_prediction ctx0 (mkLoadedManager (constModel 2) idT idT idT) recordW =
      .ok respW ∧
    (1/10 ≤ respW.loss_percentage ∧ respW.loss_percentage ≤ 5) ∧
    (1/10 ≤ (vercel_predict_loss ctx0 cacheW recordW).loss_percentage ∧
     (vercel_predict_loss ctx0 cacheW recordW).loss_percentage ≤ 5) :=
  ⟨by with_unfolding_all rfl,
   (C3_loss_clamped_surfaced_paths ctx0 (mkLoadedManager (constModel 2) idT idT idT)
     cacheW recordW).1 respW (by with_unfolding_all rfl),
   (C3_loss_clamped_surfaced_paths ctx0 (mkLoadedManager (constModel 2) idT idT idT)
     cacheW recordW).2⟩

/-- **C3, counterexample.**  The legacy `/predict` handler of
`src/deployment/app.py` (cited by the claim) surfaces the raw model output
with no clamp: a fitted model emitting the raw value 7.3 yields a surfaced
prediction of 7.3 ∉ [0.1, 5.0] on the spec's sample record. -/
theorem C3_counterexample :
    deployment_predict_loss ctx0 (mkLoadedManager (constModel (73/10)) idT idT idT)
        sampleRecord =
      .ok { prediction := 73/10
            confidence_level := "high"
            processing_time_ms := 0
            timestamp := "t0" } ∧
    ¬ ((1/10 : ℚ) ≤ 73/10 ∧ (73/10 : ℚ) ≤ 5) :=
  ⟨by with_unfolding_all rfl, by with_unfolding_all decide⟩

/-- **C4.** In the percentage mode with a compatible artifact chain, a record
with non-positive feed mass yields a successful response whose loss
percentage is the documented fallback 1.0: the division is skipped and no
error is surfaced. -/
theorem C4_zero_feed_fallback (ctx : ReqContext) (best : FittedModel)
    (scaler poly selector : FittedTransformer) (d : RefineryOperationInput)
    (hchain : widths_chain best scaler poly selector)
    (hfeed : d.actual_feed_mt ≤ 0) (hconv : d.convert_to_percentage = true) :
    ∃ r, enhance_prediction ctx (mkLoadedManager best scaler poly selector) d = .ok r ∧
      r.loss_percentage = 1 := by
  rw [enhance_eq_of_chain ctx best scaler poly selector d hchain, hconv]
  simp only [if_true]
  refine ⟨_, rfl, ?_⟩
  have hcp : clampPrediction (pipeline_raw_value best scaler poly selector d)
      d.actual_feed_mt = 1 := by
    unfold clampPrediction
    rw [if_neg (not_lt.mpr hfeed)]
  show pyRound2 (clampPrediction (pipeline_raw_value best scaler poly selector d)
    d.actual_feed_mt) = 1
  rw [hcp]
  with_unfolding_all rfl

/-- **C4, witness**: the spec's record with `actual_feed_mt = 0`. -/
theorem C4_zero_feed_fallback_witness :
    widths_chain (constModel 2) idT idT idT ∧
    ({ recordW with actual_feed_mt := 0 } : RefineryOperationInput).actual_feed_mt ≤ 0 ∧
    ({ recordW with actual_feed_mt := 0 } : RefineryOperationInput).convert_to_percentage
        = true ∧
    (∃ r, enhance_prediction ctx0 (mkLoadedManager (constModel 2) idT idT idT)
        { recordW with actual_feed_mt := 0 } = .ok r ∧ r.loss_percentage = 1) :=
  ⟨by with_unfolding_all decide, by norm_num, rfl,
   C4_zero_feed_fallback ctx0 (constModel 2) idT idT idT
     { recordW with actual_feed_mt := 0 } (by with_unfolding_all decide)
     (by norm_num) rfl⟩

/-- **C6** (amended form).  In the percentage mode with a compatible chain,
the enhanced handler's surfaced confidence is the bucket of (number of
satisfied plausibility conditions)/5, with `high` at ≥ 0.8 and `medium` at
≥ 0.6; in particular all five conditions give `high` and none give `low`.
The legacy `/predict` handler of `src/deployment/app.py` (cited by the
claim) instead buckets the magnitude of the raw prediction — `high` below
10, `medium` below 20 — and never consults the checklist. -/
theorem C6_confidence_checklist (ctx : ReqContext) (best : FittedModel)
    (scaler poly selector : FittedTransformer) (d : RefineryOperationInput)
    (hchain : widths_chain best scaler poly selector)
    (hconv : d.convert_to_percentage = true) :
    (∃ r, enhance_prediction ctx (mkLoadedManager best scaler poly selector) d = .ok r ∧
      r.confidence_level = confidence_level_of (confidence_score
        (clampPrediction (pipeline_raw_value best scaler poly selector d)
          d.actual_feed_mt) d d.actual_feed_mt) ∧
      (confidence_count (clampPrediction (pipeline_raw_value best scaler poly selector d)
          d.actual_feed_mt) d d.actual_feed_mt = 5 → r.confidence_level = "high") ∧
      (confidence_count (clampPrediction (pipeline_raw_value best scaler poly selector d)
          d.actual_feed_mt) d d.actual_feed_mt = 0 → r.confidence_level = "low")) ∧
    (∃ r2, deployment_predict_loss ctx (mkLoadedManager best scaler poly selector) d
        = .ok r2 ∧
      r2.confidence_level =
        (if |pipeline_raw_value best scaler poly selector d| < 10 then "high"
         else if |pipeline_raw_value best scaler poly selector d| < 20 then "medium"
         else "low")) := by
  refine ⟨?_, ⟨_, deployment_eq_of_chain ctx best scaler poly selector d hchain, rfl⟩⟩
  rw [enhance_eq_of_chain ctx best scaler poly selector d hchain, hconv]
  simp only [if_true]
  refine ⟨_, rfl, rfl, ?_, ?_⟩
  · intro h5
    show confidence_level_of (confidence_score _ d d.actual_feed_mt) = "high"
    unfold confidence_score
    rw [h5]
    unfold confidence_level_of
    rw [if_pos (by norm_num)]
  · intro h0
    show confidence_level_of (confidence_score _ d d.actual_feed_mt) = "low"
    unfold confidence_score
    rw [h0]
    unfold confidence_level_of
    rw [if_neg (by norm_num), if_neg (by norm_num)]

/-- **C6, witness**: `recordW` satisfies all five plausibility conditions
under a constant raw output 2 (prediction ≈ 1.99) and is surfaced `high` by
the enhanced handler; the legacy handler surfaces its magnitude bucket. -/
theorem C6_confidence_checklist_witness :
    widths_chain (constModel 2) idT idT idT ∧
    recordW.convert_to_percentage = true ∧
    confidence_count predictionW recordW recordW.actual_feed_mt = 5 ∧
    ((∃ r, enhance_prediction ctx0 (mkLoadedManager (constModel 2) idT idT idT) recordW
        = .ok r ∧
      r.confidence_level = confidence_level_of (confidence_score
        (clampPrediction (pipeline_raw_value (constModel 2) idT idT idT recordW)
          recordW.actual_feed_mt) recordW recordW.actual_feed_mt) ∧
      (confidence_count (clampPrediction (pipeline_raw_value (constModel 2) idT idT idT
          recordW) recordW.actual_feed_mt) recordW recordW.actual_feed_mt = 5 →
        r.confidence_level = "high") ∧
      (confidence_count (clampPrediction (pipeline_raw_value (constModel 2) idT idT idT
          recordW) recordW.actual_feed_mt) recordW recordW.actual_feed_mt = 0 →
        r.confidence_level = "low")) ∧
    (∃ r2, deployment_predict_loss ctx0 (mkLoadedManager (constModel 2) idT idT idT)
        recordW = .ok r2 ∧
      r2.confidence_level =
        (if |pipeline_raw_value (constModel 2) idT idT idT recordW| < 10 then "high"
         else if |pipeline_raw_value (constModel 2) idT idT idT recordW| < 20 then
           "medium"
         else "low"))) :=
  ⟨by with_unfolding_all decide, rfl, by with_unfolding_all rfl,
   C6_confidence_checklist ctx0 (constModel 2) idT idT idT recordW
     (by with_unfolding_all decide) rfl⟩

/-- A valid record satisfying none of the five plausibility conditions under
its surfaced prediction. -/
def recordNoChecks : RefineryOperationInput :=
  { sampleRecord with
    percentage_yield := 50
    feed_ffa := 5
    moisture := 1
    actual_feed_mt := 10 }

/-- **C6, counterexample.**  At the cited `src/deployment/app.py` handler a
record satisfying zero of the five plausibility conditions — evaluated at its
own surfaced prediction, the raw output 0 — is surfaced with confidence
`high`: that handler buckets `abs(prediction)` (below 10 ⇒ `high`) and never
consults the checklist, so "a record satisfying none yields low" is false of
it. -/
theorem C6_counterexample :
    confidence_count 0 recordNoChecks recordNoChecks.actual_feed_mt = 0 ∧
    validInput recordNoChecks = true ∧
    deployment_predict_loss ctx0 (mkLoadedManager (constModel 0) idT idT idT)
        recordNoChecks =
      .ok { prediction := 0
            confidence_level := "high"
            processing_time_ms := 0
            timestamp := "t0" } ∧
    "high" ≠ "low" :=
  ⟨by with_unfolding_all rfl, by with_unfolding_all rfl,
   by with_unfolding_all rfl, by decide⟩

/-- **C9.** With `convert_to_percentage = false` the handler can never return
a response (every success comes out of the conversion branch), and whenever
the pipeline itself succeeds the call fails precisely with the `NameError` on
the unassigned `feed_amount` local, mapped to the generic 500 internal
failure. -/
theorem C9_metric_tons_mode_never_ok (d : RefineryOperationInput)
    (hconv : d.convert_to_percentage = false) :
    (∀ ctx mgr r, ¬ enhance_prediction ctx mgr d = .ok r) ∧
    (∀ ctx (best : FittedModel) (scaler poly selector : FittedTransformer),
      widths_chain best scaler poly selector →
      enhance_prediction ctx (mkLoadedManager best scaler poly selector) d =
        .error (.internal .nameErrorFeedAmount) ∧
      (ApiError.internal ErrCause.nameErrorFeedAmount).statusCode = 500) := by
  constructor
  · intro ctx mgr r h
    obtain ⟨hc, -⟩ := enhance_ok_cases ctx mgr d r h
    rw [hconv] at hc
    cases hc
  · intro ctx best scaler poly selector hchain
    rw [enhance_eq_of_chain ctx best scaler poly selector d hchain, hconv]
    exact ⟨by simp, rfl⟩

/-- **C9, witness**: a concrete metric-tons-mode request on a loaded,
compatible manager fails with the wrapped `NameError`. -/
theorem C9_metric_tons_mode_never_ok_witness :
    ({ recordW with convert_to_percentage := false } :
        RefineryOperationInput).convert_to_percentage = false ∧
    enhance_prediction ctx0 (mkLoadedManager (constModel 2) idT idT idT)
        { recordW with convert_to_percentage := false } =
      .error (.internal .nameErrorFeedAmount) :=
  ⟨rfl,
   ((C9_metric_tons_mode_never_ok { recordW with convert_to_percentage := false }
      rfl).2 ctx0 (constModel 2) idT idT idT (by with_unfolding_all decide)).1⟩

/-- The deterministic content of an enhanced response: everything except the
request-scoped metadata (timestamp, request id, measured latency). -/
def coreView (r : EnhancedPredictionResponse) :
    ℚ × ℚ × String × LossBreakdown × YieldAnalysis × ProcessMetrics :=
  (r.loss_percentage, r.yield_percentage, r.confidence_level,
   r.loss_breakdown, r.yield_analysis, r.process_metrics)

/-- **C8.** Prediction is a pure function of the record and the loaded
artifacts: two invocations differing only in their request context (clock,
fresh uuid) agree on the loss percentage, yield, confidence and the whole
derived analysis — as results or as failures. -/
theorem C8_prediction_deterministic (ctx1 ctx2 : ReqContext) (mgr : ModelManager)
    (d : RefineryOperationInput) :
    (enhance_prediction ctx1 mgr d).map coreView =
      (enhance_prediction ctx2 mgr d).map coreView := by
  unfold enhance_prediction
  by_cases hr : mgr.is_ready = false
  · rw [if_pos hr, if_pos hr]
  · rw [if_neg hr, if_neg hr]
    generalize mgr.models ModelName.best_model_real = ob
    generalize mgr.models ModelName.scaler_real = os
    generalize mgr.models ModelName.poly_real = op2
    generalize mgr.models ModelName.selector_real = osel
    rcases ob with _ | (tb | mb) <;> rcases os with _ | (ts | ms) <;>
      rcases op2 with _ | (tp | mp) <;> rcases osel with _ | (tsel | msel) <;>
      try rfl
    dsimp only
    generalize tp.transform d.toFeatureList = o1
    rcases o1 with _ | l1
    · rfl
    · dsimp only
      generalize tsel.transform l1 = o2
      rcases o2 with _ | l2
      · rfl
      · dsimp only
        generalize ts.transform l2 = o3
        rcases o3 with _ | l3
        · rfl
        · dsimp only
          generalize mb.predict1 l3 = o4
          rcases o4 with _ | raw
          · rfl
          · cases hcv : d.convert_to_percentage <;> rfl

/-- If any item of the list fails in `enhance_prediction`, the whole batch
loop raises and `batch_predict` returns a single error. -/
theorem batch_predict_error_of_item (ctx : ReqContext) (mgr : ModelManager)
    (reqs : List RefineryOperationInput)
    (h : ∃ d ∈ reqs, ∃ e, enhance_prediction ctx mgr d = .error e) :
    ∃ e, batch_predict ctx mgr reqs = .error e := by
  induction reqs with
  | nil =>
    obtain ⟨d, hd, -⟩ := h
    cases hd
  | cons a l ih =>
    obtain ⟨d, hd, e, he⟩ := h
    cases hfa : enhance_prediction ctx mgr a with
    | error e1 =>
      exact ⟨.internal .batchFailed, by simp [batch_predict, hfa]⟩
    | ok r =>
      rcases List.mem_cons.mp hd with rfl | hdl
      · rw [hfa] at he
        cases he
      · obtain ⟨e2, he2⟩ := ih ⟨d, hdl, e, he⟩
        exact ⟨e2, by simp [batch_predict, hfa, he2]⟩

/-- **C5** (amended form).  The batch endpoint never isolates a failing item:
whenever some item is out of range, or some item's prediction fails, the
whole request fails with a single error — the sibling items' results are
discarded rather than returned alongside an isolated failure. -/
theorem C5_batch_failure_is_total (ctx : ReqContext) (mgr : ModelManager)
    (reqs : List RefineryOperationInput)
    (h : (∃ d ∈ reqs, validInput d = false) ∨
         (∃ d ∈ reqs, ∃ e, enhance_prediction ctx mgr d = .error e)) :
    ∃ e, batch_endpoint ctx mgr reqs = .error e := by
  by_cases hg : ((!reqs.all validInput) || decide (100 < reqs.length)) = true
  · exact ⟨.validationError, by simp [batch_endpoint, hg]⟩
  · have hall : reqs.all validInput = true := by
      rcases Bool.or_eq_false_iff.mp (Bool.not_eq_true _ ▸ hg :
        ((!reqs.all validInput) || decide (100 < reqs.length)) = false) with ⟨h1, -⟩
      simpa using h1
    rcases h with ⟨d, hd, hbad⟩ | hrun
    · rw [List.all_eq_true] at hall
      rw [hall d hd] at hbad
      cases hbad
    · obtain ⟨e, he⟩ := batch_predict_error_of_item ctx mgr reqs hrun
      refine ⟨e, ?_⟩
      unfold batch_endpoint
      rw [if_neg (by simp_all), he]

/-- **C5, witness** for the amended statement: a one-element batch whose item
is out of range fails as a whole. -/
theorem C5_batch_failure_is_total_witness :
    ((∃ d ∈ [{ recordW with percentage_yield := 150 }], validInput d = false) ∨
     (∃ d ∈ [{ recordW with percentage_yield := 150 }], ∃ e,
        enhance_prediction ctx0 (mkLoadedManager (constModel 2) idT idT idT) d
          = .error e)) ∧
    (∃ e, batch_endpoint ctx0 (mkLoadedManager (constModel 2) idT idT idT)
        [{ recordW with percentage_yield := 150 }] = .error e) :=
  have hh : (∃ d ∈ [{ recordW with percentage_yield := 150 }], validInput d = false) ∨
      (∃ d ∈ [{ recordW with percentage_yield := 150 }], ∃ e,
        enhance_prediction ctx0 (mkLoadedManager (constModel 2) idT idT idT) d
          = .error e) :=
    Or.inl ⟨{ recordW with percentage_yield := 150 }, by simp,
      by with_unfolding_all rfl⟩
  ⟨hh, C5_batch_failure_is_total ctx0 (mkLoadedManager (constModel 2) idT idT idT)
    [{ recordW with percentage_yield := 150 }] hh⟩

/-- **C5, counterexample.**  The spec's batch scenario: three valid records
and one with `percentage_yield = 150`.  Each valid record succeeds on its
own, yet the batch as a whole is rejected with a single 422 validation
failure — not three successes alongside one isolated failure. -/
theorem C5_counterexample :
    validInput { recordW with percentage_yield := 150 } = false ∧
    validInput recordW = true ∧
    enhance_prediction ctx0 (mkLoadedManager (constModel 2) idT idT idT) recordW
      = .ok respW ∧
    batch_endpoint ctx0 (mkLoadedManager (constModel 2) idT idT idT)
        [recordW, recordW, recordW, { recordW with percentage_yield := 150 }]
      = .error .validationError :=
  ⟨by with_unfolding_all rfl, by with_unfolding_all rfl,
   by with_unfolding_all rfl, by with_unfolding_all rfl⟩

/-- Under the boundary validation ranges (non-negative impurity, vapour
pressure, moisture, feed mass) every capped loss component is strictly
positive, so the renormalization branch is always taken. -/
theorem loss_components_capped_pos (p : ℚ) (op : RefineryOperationInput)
    (hffa : 0 ≤ op.feed_ffa) (hvp : 0 ≤ op.vapour_pressure)
    (hm : 0 ≤ op.moisture) (hf : 0 ≤ op.actual_feed_mt) :
    0 < (loss_components_capped p op).raw_material ∧
    0 < (loss_components_capped p op).energy ∧
    0 < (loss_components_capped p op).process ∧
    0 < (loss_components_capped p op).waste ∧
    0 < (loss_components_capped p op).efficiency := by
  have ht : (0 : ℚ) < clampTotal p :=
    lt_of_lt_of_le (by norm_num) (le_max_left (1/10) (min p 5))
  have hrm : (1 : ℚ) ≤ raw_material_modifier op :=
    le_min (by have := div_nonneg hffa (by norm_num : (0:ℚ) ≤ 10); linarith)
      (by norm_num)
  have hem : (1 : ℚ) ≤ energy_modifier op :=
    le_min (by have := div_nonneg hvp (by norm_num : (0:ℚ) ≤ 5); linarith)
      (by norm_num)
  have hpm : (1 : ℚ) ≤ process_modifier op :=
    le_min (by have := div_nonneg hm (by norm_num : (0:ℚ) ≤ 1/5); linarith)
      (by norm_num)
  have hwm : (1 : ℚ) ≤ waste_modifier op :=
    le_min (by have := div_nonneg hf (by norm_num : (0:ℚ) ≤ 1000); linarith)
      (by norm_num)
  have hM : (0 : ℚ) < total_modifier op := by
    unfold total_modifier efficiency_modifier
    linarith
  have hcap : (0 : ℚ) < max_individual_loss (clampTotal p) := by
    unfold max_individual_loss
    exact lt_min (by linarith) (by norm_num)
  have hrm0 : (0 : ℚ) < raw_material_modifier op := lt_of_lt_of_le one_pos hrm
  have hem0 : (0 : ℚ) < energy_modifier op := lt_of_lt_of_le one_pos hem
  have hpm0 : (0 : ℚ) < process_modifier op := lt_of_lt_of_le one_pos hpm
  have hwm0 : (0 : ℚ) < waste_modifier op := lt_of_lt_of_le one_pos hwm
  unfold loss_components_capped
  dsimp only
  refine ⟨lt_min (div_pos ?_ hM) hcap, lt_min (div_pos ?_ hM) hcap,
    lt_min (div_pos ?_ hM) hcap, lt_min (div_pos ?_ hM) hcap,
    lt_min (div_pos ?_ hM) hcap⟩
  · exact mul_pos (mul_pos ht (by norm_num)) hrm0
  · exact mul_pos (mul_pos ht (by norm_num)) hem0
  · exact mul_pos (mul_pos ht (by norm_num)) hpm0
  · exact mul_pos (mul_pos ht (by norm_num)) hwm0
  · unfold efficiency_modifier
    exact mul_pos (mul_pos ht (by norm_num)) one_pos

/-- **C7** (amended form).  For every prediction and every record satisfying
the boundary validation ranges, the five loss-category values as computed by
per-category capping followed by the renormalization step sum *exactly* to
the clamped total loss — before the final two-decimal rounding that
`calculate_loss_breakdown` applies when filling the response model. -/
theorem C7_breakdown_sum_exact (p : ℚ) (op : RefineryOperationInput)
    (hffa : 0 ≤ op.feed_ffa) (hvp : 0 ≤ op.vapour_pressure)
    (hm : 0 ≤ op.moisture) (hf : 0 ≤ op.actual_feed_mt) :
    (loss_components_final p op).raw_material + (loss_components_final p op).energy +
    (loss_components_final p op).process + (loss_components_final p op).waste +
    (loss_components_final p op).efficiency = clampTotal p := by
  obtain ⟨h1, h2, h3, h4, h5⟩ := loss_components_capped_pos p op hffa hvp hm hf
  have hs : 0 < (loss_components_capped p op).raw_material +
      (loss_components_capped p op).energy + (loss_components_capped p op).process +
      (loss_components_capped p op).waste + (loss_components_capped p op).efficiency := by
    linarith
  unfold loss_components_final
  rw [if_pos hs]
  dsimp only
  field_simp
  ring

/-- **C7, witness**: the exact-sum theorem instantiated at the
counterexample's own prediction and record. -/
def opC7 : RefineryOperationInput :=
  { sampleRecord with feed_ffa := 3, vapour_pressure := 1, moisture := 0 }

theorem C7_breakdown_sum_exact_witness :
    (0 ≤ opC7.feed_ffa ∧ 0 ≤ opC7.vapour_pressure ∧ 0 ≤ opC7.moisture ∧
      0 ≤ opC7.actual_feed_mt) ∧
    ((loss_components_final (61/50) opC7).raw_material +
     (loss_components_final (61/50) opC7).energy +
     (loss_components_final (61/50) opC7).process +
     (loss_components_final (61/50) opC7).waste +
     (loss_components_final (61/50) opC7).efficiency = clampTotal (61/50)) :=
  ⟨⟨by with_unfolding_all decide, by with_unfolding_all decide,
    by with_unfolding_all decide, by with_unfolding_all decide⟩,
   C7_breakdown_sum_exact (61/50) opC7 (by with_unfolding_all decide)
     (by with_unfolding_all decide) (by with_unfolding_all decide)
     (by with_unfolding_all decide)⟩

/-- **C7, counterexample.**  At prediction 1.22 on a valid record
(`feed_ffa = 3`, `vapour_pressure = 1`, `moisture = 0`,
`actual_feed_mt = 100.5`) the five values stored in the `LossBreakdown`
response — each rounded to two decimals — sum to 1.24 while the reported
total is 1.22: the discrepancy 0.02 exceeds the claimed 1e-6 tolerance. -/
theorem C7_counterexample :
    (calculate_loss_breakdown (61/50) opC7).total_loss_percentage = 61/50 ∧
    (calculate_loss_breakdown (61/50) opC7).raw_material_loss +
    (calculate_loss_breakdown (61/50) opC7).energy_loss +
    (calculate_loss_breakdown (61/50) opC7).process_loss +
    (calculate_loss_breakdown (61/50) opC7).waste_loss +
    (calculate_loss_breakdown (61/50) opC7).efficiency_loss = 31/25 ∧
    ¬ (|(31/25 : ℚ) - 61/50| ≤ 1/1000000) :=
  ⟨by with_unfolding_all rfl, by with_unfolding_all rfl, by with_unfolding_all decide⟩
